import Mathlib

/-!
Verification of the Chebyshev-Board path engine.

Shallow embedding of `src/domain/services/PathCalculator.ts`,
`src/domain/models/Coordinate.ts`, `src/domain/models/Movement.ts` and
`src/application/usecases/CalculatePathUseCase.ts`. JavaScript numbers are
modelled as `Int` where the code manipulates integer coordinates, and as `Rat`
at the validation boundary where arbitrary (possibly fractional) JSON numbers
may appear.
-/

namespace ChebyshevBoard

/-- `Coordinate` from `src/domain/models/Coordinate.ts`: a position on the
2D board, a pair of numbers `x`, `y`. -/
structure Coordinate where
  x : Int
  y : Int
deriving DecidableEq, Repr

/-- `calculateChebyshevDistance` from `PathCalculator.ts` (lines 30-41):
`dx = Math.abs(to.x - from.x)`, `dy = Math.abs(to.y - from.y)`,
returns `Math.max(dx, dy)`. -/
def calculateChebyshevDistance (fromC toC : Coordinate) : Int :=
  let dx := |toC.x - fromC.x|
  let dy := |toC.y - fromC.y|
  max dx dy

/-- The accumulation loop of `calculateMinimumSteps` (lines 66-75): for `i`
from 1 to `length - 1`, add the Chebyshev distance between coordinates
`i - 1` and `i`. -/
def chebLoop : List Coordinate → Int
  | c1 :: c2 :: rest => calculateChebyshevDistance c1 c2 + chebLoop (c2 :: rest)
  | _ => 0

/-- `calculateMinimumSteps` from `PathCalculator.ts` (lines 57-79): early
return 0 when the list has 0 or 1 coordinates, else the summed pairwise
Chebyshev distances over consecutive pairs. -/
def calculateMinimumSteps (coordinates : List Coordinate) : Int :=
  if coordinates.length ≤ 1 then 0
  else chebLoop coordinates

/-- `Direction` from `src/domain/models/Movement.ts`: the 8 compass
directions. -/
inductive Direction where
  | N | NE | E | SE | S | SW | W | NW
deriving DecidableEq, Repr

/-- The string-keyed `directionMap` of `getDirectionBetweenPoints`
(lines 214-217), as a function of the normalized sign pair; the final
`|| 'N'` fallback (line 219) becomes the default branch. -/
def directionMap (sdx sdy : Int) : Direction :=
  if sdx = 0 ∧ sdy = 1 then .N
  else if sdx = 1 ∧ sdy = 1 then .NE
  else if sdx = 1 ∧ sdy = 0 then .E
  else if sdx = 1 ∧ sdy = -1 then .SE
  else if sdx = 0 ∧ sdy = -1 then .S
  else if sdx = -1 ∧ sdy = -1 then .SW
  else if sdx = -1 ∧ sdy = 0 then .W
  else if sdx = -1 ∧ sdy = 1 then .NW
  else .N

/-- `getDirectionBetweenPoints` from `PathCalculator.ts` (lines 207-220):
normalize each delta to `0` or `delta / |delta|` and look the pair up in
the direction table. -/
def getDirectionBetweenPoints (fromC toC : Coordinate) : Direction :=
  let dx := toC.x - fromC.x
  let dy := toC.y - fromC.y
  let normalizedDx : Int := if dx = 0 then 0 else dx / |dx|
  let normalizedDy : Int := if dy = 0 then 0 else dy / |dy|
  directionMap normalizedDx normalizedDy

/-- `Movement` from `src/domain/models/Movement.ts`. -/
structure Movement where
  fromC : Coordinate
  toC : Coordinate
  direction : Direction
  stepNumber : Nat
deriving DecidableEq, Repr

/-- The loop of `calculateMovements` (lines 227-238): for `i` from 1, push
a movement from coordinate `i - 1` to coordinate `i` with `stepNumber = i`.
The first argument is the current loop index `i`. -/
def movementsLoop : Nat → List Coordinate → List Movement
  | i, c1 :: c2 :: rest =>
      { fromC := c1, toC := c2,
        direction := getDirectionBetweenPoints c1 c2,
        stepNumber := i } :: movementsLoop (i + 1) (c2 :: rest)
  | _, _ => []

/-- `calculateMovements` from `PathCalculator.ts` (lines 222-241): empty for
lists of length ≤ 1, else one movement per consecutive pair, stepNumber
starting at 1. -/
def calculateMovements (coordinates : List Coordinate) : List Movement :=
  if coordinates.length ≤ 1 then []
  else movementsLoop 1 coordinates

/-- `MovementType` from `PathCalculator.ts` (line 161). -/
inductive MovementType where
  | diagonal | linear | mixed
deriving DecidableEq, Repr

/-- `EducationalContext` from `PathCalculator.ts` (lines 163-170). -/
structure EducationalContext where
  dx : Int
  dy : Int
  chebyshevDistance : Int
  movementType : MovementType
  explanation : String
  formula : String
deriving DecidableEq, Repr

/-- `generateMovementExplanation` from `PathCalculator.ts` (lines 195-204). -/
def generateMovementExplanation (dx dy : Int) (type : MovementType) : String :=
  match type with
  | .diagonal =>
      let total := dx + dy
      s!"This diagonal movement reduces both x and y coordinates by {dx} simultaneously, requiring only {dx} step(s) instead of {total} separate moves."
  | .linear =>
      let steps := max dx dy
      s!"This linear movement changes only one coordinate, requiring exactly {steps} step(s) along a single axis."
  | .mixed =>
      let diag := min dx dy
      let lin := |dx - dy|
      let total := max dx dy
      s!"This mixed movement combines {diag} diagonal step(s) plus {lin} linear step(s), totaling {total} steps."

/-- `buildEducationalContext` from `PathCalculator.ts` (lines 172-193):
absolute deltas, Chebyshev distance, movement-type classification
(`diagonal` when `dx === dy && dx > 0`, `linear` when `dx === 0 || dy === 0`,
else `mixed`), explanation and formula strings. -/
def buildEducationalContext (movement : Movement) : EducationalContext :=
  let dx := |movement.toC.x - movement.fromC.x|
  let dy := |movement.toC.y - movement.fromC.y|
  let chebyshevDistance := max dx dy
  let movementType : MovementType :=
    if dx = dy ∧ dx > 0 then .diagonal
    else if dx = 0 ∨ dy = 0 then .linear
    else .mixed
  let explanation := generateMovementExplanation dx dy movementType
  { dx, dy, chebyshevDistance, movementType, explanation,
    formula := s!"max(|{dx}|, |{dy}|) = {chebyshevDistance}" }

/-- A parsed JSON value, the result of the platform builtin `JSON.parse` in
`CalculatePathUseCase.ts` (line 82). JSON numbers are modelled as `Rat`,
which covers every integer and non-integer value relevant to the zod
checks. -/
inductive Json where
  | null
  | bool (b : Bool)
  | num (q : Rat)
  | str (s : String)
  | arr (elems : List Json)
  | obj (fields : List (String × Json))
deriving Repr

/-- JS type name of a parsed JSON value, as it appears in zod's default
invalid-type messages. -/
def Json.typeName : Json → String
  | .null => "null"
  | .bool _ => "boolean"
  | .num _ => "number"
  | .str _ => "string"
  | .arr _ => "array"
  | .obj _ => "object"

/-- `isValidCoordinate` from `src/domain/models/Coordinate.ts` (lines 26-34):
both components must be integers (`Number.isInteger`, here `den = 1`) and
nonnegative. It receives the raw numbers of the candidate coordinate. -/
def isValidCoordinate (x y : Rat) : Bool :=
  (x.den == 1 && decide (0 ≤ x)) && (y.den == 1 && decide (0 ≤ y))

/-- zod lookup of a required numeric object field: missing gives `Required`,
a non-number gives the default invalid-type message. -/
def numField (o : Option Json) : Except String Rat :=
  match o with
  | none => .error "Required"
  | some (.num q) => .ok q
  | some j => .error ("Expected number, received " ++ j.typeName)

/-- The issue messages of zod's `.int()` and `.min(0, "errors.validation.invalidCoordinate")`
checks on one numeric field (use case lines 23-24). -/
def intMinIssues (q : Rat) : List String :=
  (if q.den = 1 then [] else ["Expected integer, received float"]) ++
  (if q < 0 then ["errors.validation.invalidCoordinate"] else [])

/-- zod `safeParse` of `CoordinateSchema` (use case lines 22-28): an object
with integer, nonnegative numeric fields `x` and `y`, then the
`.refine(isValidCoordinate)` check. Returns the validated coordinate or the
list of issue messages. -/
def parseCoordinate (j : Json) : Except (List String) Coordinate :=
  match j with
  | .obj fields =>
    match numField (fields.lookup "x"), numField (fields.lookup "y") with
    | .ok x, .ok y =>
      match intMinIssues x ++ intMinIssues y with
      | [] =>
        if isValidCoordinate x y then .ok ⟨x.num, y.num⟩
        else .error ["errors.validation.invalidCoordinate"]
      | issues => .error issues
    | .ok x, .error e => .error (intMinIssues x ++ [e])
    | .error e, .ok y => .error ([e] ++ intMinIssues y)
    | .error e1, .error e2 => .error [e1, e2]
  | _ => .error ["Expected object, received " ++ j.typeName]

/-- zod `safeParse` of `CoordinatesArraySchema` (use case lines 34-36): an
array with `.min(1, "errors.validation.atLeastOne")` whose elements all
satisfy `CoordinateSchema`; on failure, the collected issue messages
(the array-length issue first, as zod raises it before element issues). -/
def coordinatesArraySafeParse (j : Json) : Except (List String) (List Coordinate) :=
  match j with
  | .arr elems =>
    let results := elems.map parseCoordinate
    let elemIssues := results.foldr
      (fun r acc => match r with | .error es => es ++ acc | .ok _ => acc) []
    let minIssue : List String :=
      if elems.length < 1 then ["errors.validation.atLeastOne"] else []
    match minIssue ++ elemIssues with
    | [] => .ok (results.filterMap
        (fun r => match r with | .ok c => some c | .error _ => none))
    | issues => .error issues
  | _ => .error ["Expected array, received " ++ j.typeName]

/-- `CalculatePathInput` from the use case (lines 45-47). The
`coordinatesJson` string is consumed only by the platform builtin
`JSON.parse` (step 1, lines 80-88), so the embedding carries the parse
result: `none` models a `JSON.parse` throw on malformed input, `some j` a
successful parse. In particular the input string `"[]"` parses to
`some (Json.arr [])`. -/
structure CalculatePathInput where
  coordinatesJson : Option Json

/-- `CalculatePathOutput` from the use case (lines 52-59): the
success/failure discriminated union. -/
inductive CalculatePathOutput where
  | success (coordinates : List Coordinate) (totalSteps : Int)
  | failure (error : String)
deriving DecidableEq, Repr

/-- `calculatePath` from `CalculatePathUseCase.ts` (lines 77-122): parse
failure yields the invalid-JSON error; zod validation failure yields
`Validation failed: ` with the joined issue messages; otherwise the
validated coordinates and `calculateMinimumSteps` of them. -/
def calculatePath (input : CalculatePathInput) : CalculatePathOutput :=
  match input.coordinatesJson with
  | none => .failure "errors.validation.invalidJson"
  | some parsedData =>
    match coordinatesArraySafeParse parsedData with
    | .error errs =>
        .failure ("Validation failed: " ++ String.intercalate ", " errs)
    | .ok coordinates =>
        .success coordinates (calculateMinimumSteps coordinates)

/-- The spec's cumulative-steps formula, written from the spec's words for
comparison with `calculateMinimumSteps`: the sum over consecutive pairs of
`max(|dx|, |dy|)`. -/
def specPairwiseSum (L : List Coordinate) : Int :=
  ((L.zip L.tail).map (fun p => max |p.2.x - p.1.x| |p.2.y - p.1.y|)).sum

/-! ### Helper lemmas -/

lemma div_abs_eq_sign (d : Int) (h : d ≠ 0) : d / |d| = d.sign := by
  nth_rewrite 1 [← Int.sign_mul_abs d]
  rw [Int.mul_ediv_cancel _ (abs_ne_zero.mpr h)]

lemma normalized_eq_sign (d : Int) : (if d = 0 then 0 else d / |d|) = d.sign := by
  by_cases h : d = 0
  · simp [h]
  · simp [h, div_abs_eq_sign d h]

lemma int_sign_cases (d : Int) : d.sign = -1 ∨ d.sign = 0 ∨ d.sign = 1 := by
  rcases lt_trichotomy d 0 with h | h | h
  · exact .inl (Int.sign_eq_neg_one_of_neg h)
  · exact .inr (.inl (by simp [h]))
  · exact .inr (.inr (Int.sign_eq_one_of_pos h))

lemma getDirection_eq_sign_map (fromC toC : Coordinate) :
    getDirectionBetweenPoints fromC toC =
      directionMap (toC.x - fromC.x).sign (toC.y - fromC.y).sign := by
  simp only [getDirectionBetweenPoints]
  rw [normalized_eq_sign, normalized_eq_sign]

lemma chebLoop_eq_specPairwiseSum (L : List Coordinate) :
    chebLoop L = specPairwiseSum L := by
  induction L with
  | nil => rfl
  | cons a t ih =>
    cases t with
    | nil => rfl
    | cons b t2 =>
      simp only [chebLoop, ih]
      simp [specPairwiseSum, calculateChebyshevDistance]

lemma calculateMinimumSteps_eq_chebLoop (L : List Coordinate) :
    calculateMinimumSteps L = chebLoop L := by
  unfold calculateMinimumSteps
  by_cases h : L.length ≤ 1
  · rw [if_pos h]
    match L, h with
    | [], _ => rfl
    | [a], _ => rfl
    | a :: b :: t, h => exact absurd h (by simp)
  · rw [if_neg h]

/-! ### Claim theorems -/

/-- C1: for all integer points, `calculateChebyshevDistance` returns exactly
`max(|to.x - from.x|, |to.y - from.y|)`; the result is a non-negative
integer, equals `calculateMinimumSteps` on the two-point list, and is 0 when
`from == to`. The function is total by construction. -/
theorem chebyshev_distance_formula (fromC toC : Coordinate) :
    calculateChebyshevDistance fromC toC =
      ((max (toC.x - fromC.x).natAbs (toC.y - fromC.y).natAbs : Nat) : Int) ∧
    0 ≤ calculateChebyshevDistance fromC toC ∧
    calculateMinimumSteps [fromC, toC] = calculateChebyshevDistance fromC toC ∧
    calculateChebyshevDistance fromC fromC = 0 := by
  refine ⟨?_, ?_, ?_, ?_⟩
  · simp only [calculateChebyshevDistance, Nat.cast_max, Int.abs_eq_natAbs]
  · exact le_max_of_le_left (abs_nonneg _)
  · simp [calculateMinimumSteps, chebLoop]
  · simp [calculateChebyshevDistance]

/-- C2: `calculateMinimumSteps` equals the sum over consecutive pairs of the
pairwise Chebyshev distance, and returns 0 on lists of length 0 or 1. -/
theorem minimum_steps_is_pairwise_sum (L : List Coordinate) (a : Coordinate) :
    calculateMinimumSteps L = specPairwiseSum L ∧
    calculateMinimumSteps [] = 0 ∧
    calculateMinimumSteps [a] = 0 := by
  refine ⟨?_, rfl, rfl⟩
  rw [calculateMinimumSteps_eq_chebLoop, chebLoop_eq_specPairwiseSum]

/-- C6: on a degenerate pair (`from == to`, the `(0, 0)` sign pair),
`getDirectionBetweenPoints` signals no error and returns the `N` fallback. -/
theorem degenerate_pair_falls_back_to_north (p : Coordinate) :
    getDirectionBetweenPoints p p = Direction.N := by
  simp [getDirectionBetweenPoints, directionMap]

/-- C7: the two-point minimum-step count is symmetric in its endpoints. -/
theorem minimum_steps_symmetric (a b : Coordinate) :
    calculateMinimumSteps [a, b] = calculateMinimumSteps [b, a] := by
  simp [calculateMinimumSteps, chebLoop, calculateChebyshevDistance,
    abs_sub_comm, max_comm]

/-- C8: the end-to-end example `[(0,0), (1,2), (3,1)]` yields 4 total steps
and exactly two movements, step 1 from `(0,0)` to `(1,2)` and step 2 from
`(1,2)` to `(3,1)`. -/
theorem end_to_end_example :
    calculateMinimumSteps [⟨0, 0⟩, ⟨1, 2⟩, ⟨3, 1⟩] = 4 ∧
    calculateMovements [⟨0, 0⟩, ⟨1, 2⟩, ⟨3, 1⟩] =
      [⟨⟨0, 0⟩, ⟨1, 2⟩, Direction.NE, 1⟩, ⟨⟨1, 2⟩, ⟨3, 1⟩, Direction.SE, 2⟩] := by
  exact ⟨by decide, by decide⟩

/-- C9: the parsed empty JSON array (the parse of the input string `"[]"`)
is rejected by `calculatePath` with the at-least-one validation error, even
though the core `calculateMinimumSteps` accepts the empty list and yields
0. -/
theorem empty_array_rejected_at_boundary :
    calculatePath ⟨some (Json.arr [])⟩ =
      CalculatePathOutput.failure "Validation failed: errors.validation.atLeastOne" ∧
    calculateMinimumSteps [] = 0 := by
  exact ⟨by decide, rfl⟩

/-- The spec's §3/§4.2 sign-pair table, written from the spec's words for
comparison with the code's classification: `N=(0,1)`, `NE=(1,1)`, `E=(1,0)`,
`SE=(1,-1)`, `S=(0,-1)`, `SW=(-1,-1)`, `W=(-1,0)`, `NW=(-1,1)`; the `(0,0)`
pair (and any non-sign pair) is not a member. -/
def specDirectionTable (sdx sdy : Int) : Option Direction :=
  if sdx = 0 ∧ sdy = 1 then some .N
  else if sdx = 1 ∧ sdy = 1 then some .NE
  else if sdx = 1 ∧ sdy = 0 then some .E
  else if sdx = 1 ∧ sdy = -1 then some .SE
  else if sdx = 0 ∧ sdy = -1 then some .S
  else if sdx = -1 ∧ sdy = -1 then some .SW
  else if sdx = -1 ∧ sdy = 0 then some .W
  else if sdx = -1 ∧ sdy = 1 then some .NW
  else none

lemma movementsLoop_length (k : Nat) (L : List Coordinate) :
    (movementsLoop k L).length = L.length - 1 := by
  induction L generalizing k with
  | nil => rfl
  | cons a t ih =>
    cases t with
    | nil => rfl
    | cons b t2 =>
      simp only [movementsLoop, List.length_cons]
      rw [ih (k + 1)]
      simp

lemma movementsLoop_getElem (L : List Coordinate) (k i : Nat)
    (hi : i < (movementsLoop k L).length)
    (h1 : i < L.length) (h2 : i + 1 < L.length) :
    (movementsLoop k L).get ⟨i, hi⟩ =
      { fromC := L.get ⟨i, h1⟩, toC := L.get ⟨i + 1, h2⟩,
        direction := getDirectionBetweenPoints (L.get ⟨i, h1⟩) (L.get ⟨i + 1, h2⟩),
        stepNumber := k + i } := by
  induction L generalizing k i with
  | nil => simp [movementsLoop] at hi
  | cons a t ih =>
    cases t with
    | nil => simp [movementsLoop] at hi
    | cons b t2 =>
      cases i with
      | zero => rfl
      | succ j =>
        have hi' : j < (movementsLoop (k + 1) (b :: t2)).length := by
          simpa [movementsLoop] using hi
        have h1' : j < (b :: t2).length := by simpa using h1
        have h2' : j + 1 < (b :: t2).length := by simpa using h2
        have step := ih (k + 1) j hi' h1' h2'
        simp only [movementsLoop, List.get_cons_succ]
        rw [step]
        congr 1
        omega

/-- C3: for every waypoint list of length at least 1, `calculateMovements`
returns exactly `length - 1` entries (none when the length is 1), and the
0-based entry `i` has `from` equal to waypoint `i`, `to` equal to waypoint
`i + 1`, the direction between them, and `stepNumber = i + 1`, in traversal
order. -/
theorem movements_shape (L : List Coordinate) (_h : 1 ≤ L.length) :
    (calculateMovements L).length = L.length - 1 ∧
    ∀ i (hi : i < (calculateMovements L).length)
      (h1 : i < L.length) (h2 : i + 1 < L.length),
      (calculateMovements L).get ⟨i, hi⟩ =
        { fromC := L.get ⟨i, h1⟩, toC := L.get ⟨i + 1, h2⟩,
          direction := getDirectionBetweenPoints (L.get ⟨i, h1⟩) (L.get ⟨i + 1, h2⟩),
          stepNumber := i + 1 } := by
  by_cases hlen : L.length ≤ 1
  · constructor
    · simp [calculateMovements, hlen]
    · intro i hi h1 h2
      simp [calculateMovements, hlen] at hi
  · have hEq : calculateMovements L = movementsLoop 1 L := by
      rw [calculateMovements, if_neg hlen]
    constructor
    · rw [hEq]
      exact movementsLoop_length 1 L
    · intro i hi h1 h2
      have hi' : i < (movementsLoop 1 L).length := hEq ▸ hi
      rw [List.get_of_eq hEq ⟨i, hi⟩]
      rw [movementsLoop_getElem L 1 i (hEq ▸ hi) h1 h2]
      congr 1
      omega

/-- Witness for C3 at the concrete list `[(0,0), (2,1)]`: the hypothesis and
the inner bound conditions hold there, giving the entry count and the shape
of entry 0. -/
theorem movements_shape_witness :
    1 ≤ ([⟨0, 0⟩, ⟨2, 1⟩] : List Coordinate).length ∧
    (calculateMovements [⟨0, 0⟩, ⟨2, 1⟩]).length =
      ([⟨0, 0⟩, ⟨2, 1⟩] : List Coordinate).length - 1 ∧
    (calculateMovements [⟨0, 0⟩, ⟨2, 1⟩]).get ⟨0, by decide⟩ =
      { fromC := ⟨0, 0⟩, toC := ⟨2, 1⟩,
        direction := getDirectionBetweenPoints ⟨0, 0⟩ ⟨2, 1⟩,
        stepNumber := 0 + 1 } :=
  ⟨by decide, (movements_shape [⟨0, 0⟩, ⟨2, 1⟩] (by decide)).1,
    (movements_shape [⟨0, 0⟩, ⟨2, 1⟩] (by decide)).2 0
      (by decide) (by decide) (by decide)⟩

/-- C4: whenever the sign pair of the deltas is not `(0, 0)`,
`getDirectionBetweenPoints` agrees with the spec's 8-entry sign-pair table,
and in particular classifies `(0,0)→(1,1)` as `NE`, `(2,3)→(2,1)` as `S`,
and `(5,5)→(2,5)` as `W`. -/
theorem direction_matches_sign_table (fromC toC : Coordinate)
    (h : ¬((toC.x - fromC.x).sign = 0 ∧ (toC.y - fromC.y).sign = 0)) :
    specDirectionTable (toC.x - fromC.x).sign (toC.y - fromC.y).sign =
      some (getDirectionBetweenPoints fromC toC) ∧
    getDirectionBetweenPoints ⟨0, 0⟩ ⟨1, 1⟩ = Direction.NE ∧
    getDirectionBetweenPoints ⟨2, 3⟩ ⟨2, 1⟩ = Direction.S ∧
    getDirectionBetweenPoints ⟨5, 5⟩ ⟨2, 5⟩ = Direction.W := by
  refine ⟨?_, by decide, by decide, by decide⟩
  rw [getDirection_eq_sign_map]
  rcases int_sign_cases (toC.x - fromC.x) with hx | hx | hx <;>
    rcases int_sign_cases (toC.y - fromC.y) with hy | hy | hy <;>
      rw [hx, hy] <;> first
        | rfl
        | exact absurd ⟨hx, hy⟩ h

/-- Witness for C4 at the concrete pair `(0,0)→(1,1)`. -/
theorem direction_matches_sign_table_witness :
    specDirectionTable ((1 : Int) - 0).sign ((1 : Int) - 0).sign =
      some (getDirectionBetweenPoints ⟨0, 0⟩ ⟨1, 1⟩) ∧
    getDirectionBetweenPoints ⟨0, 0⟩ ⟨1, 1⟩ = Direction.NE ∧
    getDirectionBetweenPoints ⟨2, 3⟩ ⟨2, 1⟩ = Direction.S ∧
    getDirectionBetweenPoints ⟨5, 5⟩ ⟨2, 5⟩ = Direction.W :=
  direction_matches_sign_table ⟨0, 0⟩ ⟨1, 1⟩ (by decide)

lemma movementsLoop_map_dist_sum (k : Nat) (L : List Coordinate) :
    ((movementsLoop k L).map
      (fun m => max |m.toC.x - m.fromC.x| |m.toC.y - m.fromC.y|)).sum =
      chebLoop L := by
  induction L generalizing k with
  | nil => rfl
  | cons a t ih =>
    cases t with
    | nil => rfl
    | cons b t2 =>
      simp only [movementsLoop, chebLoop, List.map_cons, List.sum_cons, ih]
      rfl

/-- C5: summing the pairwise Chebyshev distance over the `from`/`to` fields
of `calculateMovements`'s own output equals `calculateMinimumSteps` on the
same list: the two independently implemented components agree. -/
theorem movements_agree_with_minimum_steps (L : List Coordinate) :
    ((calculateMovements L).map
      (fun m => max |m.toC.x - m.fromC.x| |m.toC.y - m.fromC.y|)).sum =
      calculateMinimumSteps L := by
  rw [calculateMinimumSteps_eq_chebLoop]
  by_cases h : L.length ≤ 1
  · rw [calculateMovements, if_pos h]
    match L, h with
    | [], _ => rfl
    | [a], _ => rfl
    | a :: b :: t, h => exact absurd h (by simp)
  · rw [calculateMovements, if_neg h]
    exact movementsLoop_map_dist_sum 1 L

/-- C10: `buildEducationalContext` reports the Chebyshev distance of its
movement, classifies it `diagonal` exactly when the absolute deltas are
equal and positive, `linear` exactly when some absolute delta is zero (so a
degenerate movement is `linear` with distance 0), and `mixed` otherwise. -/
theorem educational_context_classification (m : Movement) :
    (buildEducationalContext m).chebyshevDistance =
      max |m.toC.x - m.fromC.x| |m.toC.y - m.fromC.y| ∧
    ((buildEducationalContext m).movementType = MovementType.diagonal ↔
      (|m.toC.x - m.fromC.x| = |m.toC.y - m.fromC.y| ∧
        0 < |m.toC.x - m.fromC.x|)) ∧
    ((buildEducationalContext m).movementType = MovementType.linear ↔
      (|m.toC.x - m.fromC.x| = 0 ∨ |m.toC.y - m.fromC.y| = 0)) ∧
    ((buildEducationalContext m).movementType = MovementType.mixed ↔
      (|m.toC.x - m.fromC.x| ≠ |m.toC.y - m.fromC.y| ∧
        |m.toC.x - m.fromC.x| ≠ 0 ∧ |m.toC.y - m.fromC.y| ≠ 0)) ∧
    (buildEducationalContext { m with toC := m.fromC }).movementType =
      MovementType.linear ∧
    (buildEducationalContext { m with toC := m.fromC }).chebyshevDistance = 0 := by
  obtain ⟨dx, hdx, hxnn⟩ : ∃ d : ℤ, |m.toC.x - m.fromC.x| = d ∧ 0 ≤ d :=
    ⟨_, rfl, abs_nonneg _⟩
  obtain ⟨dy, hdy, hynn⟩ : ∃ d : ℤ, |m.toC.y - m.fromC.y| = d ∧ 0 ≤ d :=
    ⟨_, rfl, abs_nonneg _⟩
  refine ⟨rfl, ?_, ?_, ?_,
    by simp [buildEducationalContext], by simp [buildEducationalContext]⟩ <;>
    simp only [buildEducationalContext, hdx, hdy] <;>
      split_ifs with h1 h2 <;> simp <;> omega

end ChebyshevBoard
